import Mathlib

/-!
Verification of the cartesi-preimage-oracle host: a shallow embedding of the
preimage key-value store, the hint-driven prefetcher, the preimage-serving
loop, the local preimage source and the HTTP route handlers, together with
theorems about their behaviour.

Bytes are modelled as `Nat` (values < 256 in practice; no arithmetic overflow
occurs in the embedded code), byte strings as `List Nat`.  The KV store is a
journal (newest entry first): `Put` prepends, `Get` returns the first match.
External collaborators (keccak256, the L1 RPC / beacon clients, the RLP and
MPT encoders, the KZG precompile) are fields of an `Oracle` record; the
embedded code is parametric in them, mirroring the Go interfaces.
-/

set_option autoImplicit false

/-- Errors distinguished by the embedded code: the store's not-found sentinel
(`kvstore.ErrNotFound`) versus an arbitrary message error (`fmt.Errorf`). -/
inductive GoErr where
  | notFound : GoErr
  | msg : String → GoErr
  deriving DecidableEq, Repr

instance instDecEqExcept {ε α : Type} [DecidableEq ε] [DecidableEq α] :
    DecidableEq (Except ε α) := fun
  | .ok a, .ok b =>
    if h : a = b then .isTrue (by rw [h]) else .isFalse (by intro he; cases he; exact h rfl)
  | .ok _, .error _ => .isFalse (by intro he; cases he)
  | .error _, .ok _ => .isFalse (by intro he; cases he)
  | .error e, .error f =>
    if h : e = f then .isTrue (by rw [h]) else .isFalse (by intro he; cases he; exact h rfl)

/-- The KV store, as a journal of `(key, value)` entries, newest first. -/
abbrev Store : Type := List (List Nat × List Nat)

/-- KV.Put: record the entry (newest first). -/
def kvPut (k v : List Nat) (s : Store) : Store := (k, v) :: s

/-- KV.Get: first (most recent) entry for the key, or `ErrNotFound`. -/
def kvGet : Store → List Nat → Except GoErr (List Nat)
  | [], _ => .error .notFound
  | (k, v) :: rest, key => if k = key then .ok v else kvGet rest key

/-- Modelled from the spec: the op-preimage key scheme (the `op-preimage`
package is not part of this repository's sources).  `PreimageKey` overwrites
the first byte of a 32-byte digest with the type tag: 2 = Keccak256,
3 = Sha256, 4 = Blob, 6 = KZG point evaluation. -/
def preimageKey (tag : Nat) (digest : List Nat) : List Nat := tag :: digest.drop 1

/-- Big-endian u64 bytes of `n` (binary.BigEndian.PutUint64). -/
def u64be (n : Nat) : List Nat :=
  [n / 256 ^ 7 % 256, n / 256 ^ 6 % 256, n / 256 ^ 5 % 256, n / 256 ^ 4 % 256,
   n / 256 ^ 3 % 256, n / 256 ^ 2 % 256, n / 256 % 256, n % 256]

/-- binary.BigEndian.Uint64 over an 8-byte slice. -/
def beUint (l : List Nat) : Nat := l.foldl (fun a b => a * 256 + b) 0

/-- Modelled from the spec: local storage keys have tag 1 and carry the
index big-endian in the remaining 31 bytes (the op-preimage
`LocalIndexKey.PreimageKey`, not part of this repository's sources). -/
def localIndexKey (i : Nat) : List Nat := 1 :: (List.replicate 23 0 ++ u64be i)

/-- Modelled from the spec: `client.L1HeadLocalIndex` is local index 1
(op-program client package, not part of this repository's sources). -/
def l1HeadKey : List Nat := localIndexKey 1

-- Basic store lemmas ---------------------------------------------------------

theorem kvGet_nil (k : List Nat) : kvGet [] k = .error .notFound := rfl

theorem kvGet_put_self (k v : List Nat) (s : Store) :
    kvGet (kvPut k v s) k = .ok v := by
  simp [kvPut, kvGet]

theorem kvGet_put_other (k k' v : List Nat) (s : Store) (h : k ≠ k') :
    kvGet (kvPut k v s) k' = kvGet s k' := by
  simp [kvPut, kvGet, h]

theorem kvGet_append (a b : Store) (k : List Nat) :
    kvGet (a ++ b) k =
      match kvGet a k with
      | .ok v => .ok v
      | .error _ => kvGet b k := by
  induction a with
  | nil => simp [kvGet]
  | cons e rest ih =>
    obtain ⟨ek, ev⟩ := e
    by_cases h : ek = k
    · simp [kvGet, h]
    · simpa [kvGet, h] using ih

theorem kvGet_append_self (ws rest : Store) (k : List Nat) :
    kvGet (ws ++ (ws ++ rest)) k = kvGet (ws ++ rest) k := by
  rw [kvGet_append, kvGet_append (a := ws) (b := rest)]
  cases h : kvGet ws k <;> simp

-- String utilities mirroring the Go standard library ------------------------

/-- strings.Cut at the first space: `some (before, after)` when a space
occurs, `none` otherwise. -/
def cutSpace : List Char → Option (List Char × List Char)
  | [] => none
  | c :: cs =>
    if c = ' ' then some ([], cs)
    else (cutSpace cs).map (fun p => (c :: p.1, p.2))

/-- Value of a hex digit character, if any (encoding/hex and hexutil accept
0-9, a-f, A-F). -/
def hexVal (c : Char) : Option Nat :=
  if '0' ≤ c ∧ c ≤ '9' then some (c.toNat - '0'.toNat)
  else if 'a' ≤ c ∧ c ≤ 'f' then some (c.toNat - 'a'.toNat + 10)
  else if 'A' ≤ c ∧ c ≤ 'F' then some (c.toNat - 'A'.toNat + 10)
  else none

/-- Decode an even-length run of hex digits into bytes; `none` on an odd
length or a non-hex character. -/
def hexPairs : List Char → Option (List Nat)
  | [] => some []
  | [_] => none
  | a :: b :: rest =>
    match hexVal a, hexVal b, hexPairs rest with
    | some ha, some hb, some tl => some ((ha * 16 + hb) :: tl)
    | _, _, _ => none

/-- hex.DecodeString (encoding/hex): no prefix, even-length hex. -/
def hexDecodeStd (s : String) : Option (List Nat) := hexPairs s.toList

/-- hexutil.Decode: requires a non-empty string with a `0x`/`0X` prefix,
then even-length hex. -/
def hexutilDecode (s : String) : Except String (List Nat) :=
  match s.toList with
  | [] => .error "empty hex string"
  | '0' :: 'x' :: rest =>
    match hexPairs rest with
    | some bs => .ok bs
    | none => .error "invalid hex string"
  | '0' :: 'X' :: rest =>
    match hexPairs rest with
    | some bs => .ok bs
    | none => .error "invalid hex string"
  | _ => .error "hex string without 0x prefix"

/-- Whether `needle` occurs at the start of `hay`. -/
def startsWithL : List Char → List Char → Bool
  | [], _ => true
  | _ :: _, [] => false
  | a :: as, b :: bs => a = b && startsWithL as bs

/-- Whether `needle` occurs anywhere in `hay`. -/
def containsL (needle : List Char) : List Char → Bool
  | [] => startsWithL needle []
  | c :: rest => startsWithL needle (c :: rest) || containsL needle rest

/-- strings.Contains: substring test. -/
def strContains (hay needle : String) : Bool := containsL needle.toList hay.toList

-- Hints ----------------------------------------------------------------------

/-- Modelled from the spec: the five recognised hint type strings (the
op-program `client/l1` hint constants are not part of this repository's
sources; the spec lists the five recognised strings). -/
def HintL1BlockHeader : String := "l1-block-header"

/-- Modelled from the spec: see `HintL1BlockHeader`. -/
def HintL1Transactions : String := "l1-transactions"

/-- Modelled from the spec: see `HintL1BlockHeader`. -/
def HintL1Receipts : String := "l1-receipts"

/-- Modelled from the spec: see `HintL1BlockHeader`. -/
def HintL1Blob : String := "l1-blob"

/-- Modelled from the spec: see `HintL1BlockHeader`. -/
def HintL1KZGPointEvaluation : String := "l1-kzg-point-evaluation"

/-- parseHint (src/unnamed/part_002 lines 216-227): cut the hint at the first
space into a type and a `0x…` payload, decoding the payload with
hexutil.Decode. -/
def parseHint (hint : String) : Except String (String × List Nat) :=
  match cutSpace hint.toList with
  | none => .error ("unsupported hint: " ++ hint)
  | some (tchars, bchars) =>
    let bytesStr := String.mk bchars
    match hexutilDecode bytesStr with
    | .error _ => .error ("invalid bytes: " ++ bytesStr)
    | .ok bs => .ok (String.mk tchars, bs)

-- External collaborators ------------------------------------------------------

/-- What the prefetcher consumes from `eth.BlockInfo`: the canonical header
RLP (`HeaderRLP`, which can fail to marshal). -/
structure BlockInfo where
  headerRLP : Except String (List Nat)

/-- eth.BlobSidecar: the 48-byte KZG commitment and the 131072-byte blob. -/
structure BlobSidecar where
  kzgCommitment : List Nat
  blob : List Nat

/-- The deterministic external collaborators of the prefetcher, mirroring the
Go interfaces `L1Source`, `L1BlobSource`, the KZG precompile of
`vm.PrecompiledContractsCancun`, `crypto.Keccak256Hash`, `eth.Encode…` and
`mpt.WriteTrie`.  Fetch methods return `Except` for the Go `(…, error)`
pair; `getBlobSidecars` takes the block-ref timestamp and the indexed blob
hashes. -/
structure Oracle where
  keccak : List Nat → List Nat
  infoByHash : List Nat → Except String BlockInfo
  infoAndTxsByHash : List Nat → Except String (BlockInfo × List (List Nat))
  fetchReceipts : List Nat → Except String (BlockInfo × List (List Nat))
  getBlobSidecars : Nat → List (List Nat × Nat) → Except String (List BlobSidecar)
  kzgOk : List Nat → Bool
  encodeTxs : List (List Nat) → Except String (List (List Nat))
  encodeReceipts : List (List Nat) → Except String (List (List Nat))
  writeTrie : List (List Nat) → List (List Nat)

-- The prefetcher --------------------------------------------------------------

/-- Go's `copy(blobKey[:48], sidecar.KZGCommitment[:])` into a zeroed buffer:
the first 48 bytes of the commitment, zero-padded to 48 (the Go type
`eth.Bytes48` always has length 48, in which case this is the identity). -/
def pad48 (c : List Nat) : List Nat := c.take 48 ++ List.replicate (48 - c.length) 0

/-- The 80-byte blob field-element key:
`commitment(48) ‖ zeros(24) ‖ u64_be(i)` (src/unnamed/part_002 lines
155-158). -/
def blobFieldKey (c : List Nat) (i : Nat) : List Nat :=
  pad48 c ++ List.replicate 24 0 ++ u64be i

/-- Prefetcher.storeTrieNodes (src/unnamed/part_002 lines 204-213): write
every trie node under its Keccak256 key.  `Put` cannot fail in the
in-memory model, so the early error return never fires. -/
def storeTrieNodes (o : Oracle) (values : List (List Nat)) (s : Store) : Store :=
  (o.writeTrie values).foldl (fun acc node => kvPut (preimageKey 2 (o.keccak node)) node acc) s

/-- Prefetcher.prefetch (src/unnamed/part_002 lines 86-186).  The state of
the Go method is the KV store it mutates; the model threads the store
explicitly and returns it with the Go error value. -/
def prefetch (o : Oracle) (hint : String) (s : Store) : Except String Unit × Store :=
  match parseHint hint with
  | .error e => (.error e, s)
  | .ok (hintType, hintBytes) =>
    if hintType = HintL1BlockHeader then
      if hintBytes.length ≠ 32 then (.error "invalid L1 block hint", s)
      else
        match o.infoByHash hintBytes with
        | .error _ => (.error "failed to fetch L1 block header", s)
        | .ok header =>
          match header.headerRLP with
          | .error _ => (.error "marshall header", s)
          | .ok data => (.ok (), kvPut (preimageKey 2 hintBytes) data s)
    else if hintType = HintL1Transactions then
      if hintBytes.length ≠ 32 then (.error "invalid L1 transactions hint", s)
      else
        match o.infoAndTxsByHash hintBytes with
        | .error _ => (.error "failed to fetch L1 block txs", s)
        | .ok (_, txs) =>
          match o.encodeTxs txs with
          | .error e => (.error e, s)
          | .ok opaqueTxs => (.ok (), storeTrieNodes o opaqueTxs s)
    else if hintType = HintL1Receipts then
      if hintBytes.length ≠ 32 then (.error "invalid L1 receipts hint", s)
      else
        match o.fetchReceipts hintBytes with
        | .error _ => (.error "failed to fetch L1 block receipts", s)
        | .ok (_, receipts) =>
          match o.encodeReceipts receipts with
          | .error e => (.error e, s)
          | .ok opaqueReceipts => (.ok (), storeTrieNodes o opaqueReceipts s)
    else if hintType = HintL1Blob then
      if hintBytes.length ≠ 48 then (.error "invalid blob hint", s)
      else
        let blobVersionHash := hintBytes.take 32
        let blobHashIndex := beUint ((hintBytes.drop 32).take 8)
        let refTimestamp := beUint ((hintBytes.drop 40).take 8)
        match o.getBlobSidecars refTimestamp [(blobVersionHash, blobHashIndex)] with
        | .error _ => (.error "failed to fetch blob sidecars", s)
        | .ok sidecars =>
          if h1 : sidecars.length ≠ 1 then (.error "failed to fetch blob sidecars", s)
          else
            let sidecar := sidecars.head (by intro hnil; simp [hnil] at h1)
            let s1 := kvPut (preimageKey 3 blobVersionHash) sidecar.kzgCommitment s
            let s2 := (List.range 4096).foldl (fun acc i =>
              let bk := blobFieldKey sidecar.kzgCommitment i
              kvPut (preimageKey 4 (o.keccak bk)) ((sidecar.blob.drop (32 * i)).take 32)
                (kvPut (preimageKey 2 (o.keccak bk)) bk acc)) s1
            (.ok (), s2)
    else if hintType = HintL1KZGPointEvaluation then
      let result : List Nat := if o.kzgOk hintBytes then [1] else [0]
      let inputHash := o.keccak hintBytes
      let s1 := kvPut (preimageKey 2 inputHash) hintBytes s
      (.ok (), kvPut (preimageKey 6 inputHash) result s1)
    else (.error ("unknown hint type: " ++ hintType), s)

-- The serving loop ------------------------------------------------------------

/-- The retry loop of Prefetcher.GetPreimage (src/unnamed/part_002 lines
67-84), with an explicit fuel bound: `r` is the pending `store.Get` result;
while it is `ErrNotFound` and the recorded hint is non-empty, run the
prefetcher and re-read.  `none` means the fuel ran out with the loop still
running (the Go loop has no bound).  Nothing inside the loop modifies the
recorded hint, so it is a plain parameter. -/
def getPreimageLoop (o : Oracle) (hint : String) (key : List Nat) :
    Nat → Except GoErr (List Nat) → Store → Option (Except GoErr (List Nat) × Store)
  | 0, r, s =>
    if r = .error .notFound ∧ hint ≠ "" then none else some (r, s)
  | fuel + 1, r, s =>
    if r = .error .notFound ∧ hint ≠ "" then
      match prefetch o hint s with
      | (.error e, s1) => some (.error (.msg ("prefetch failed: " ++ e)), s1)
      | (.ok _, s1) => getPreimageLoop o hint key fuel (kvGet s1 key) s1
    else some (r, s)

/-- Prefetcher.GetPreimage (src/unnamed/part_002 lines 67-84): first read,
then the retry loop. -/
def GetPreimage (o : Oracle) (hint : String) (key : List Nat) (fuel : Nat) (s : Store) :
    Option (Except GoErr (List Nat) × Store) :=
  getPreimageLoop o hint key fuel (kvGet s key) s

/-- Divergence of the serving loop: no amount of fuel makes it return. -/
def GetPreimageDiverges (o : Oracle) (hint : String) (key : List Nat) (s : Store) : Prop :=
  ∀ fuel, GetPreimage o hint key fuel s = none

-- The local preimage source ----------------------------------------------------

/-- host/config.Config, restricted to the field the local source reads:
the required L1 head hash (a `common.Hash`, hence 32 bytes). -/
structure Config where
  l1Head : List Nat

/-- LocalPreimageSource.Get (src/unnamed/part_000 lines 22-29): the L1 head
bytes under `client.L1HeadLocalIndex.PreimageKey()`, `ErrNotFound`
otherwise. -/
def LocalPreimageSource.Get (cfg : Config) (key : List Nat) : Except GoErr (List Nat) :=
  if key = l1HeadKey then .ok cfg.l1Head else .error .notFound

-- The HTTP routes and server wiring -------------------------------------------

/-- The offline preimage source selected by PreimageServer when fetching is
disabled (src/unnamed/part_001 line 99): `kv.Get`, with no local source or
prefetcher in the path. -/
def offlinePreimageSource (s : Store) (key : List Nat) : Except GoErr (List Nat) :=
  kvGet s key

/-- The /dehash/ route handler (src/unnamed/part_001 lines 132-153) applied
to the path suffix.  Result: `some (status, body)`, or `none` when the Go
handler panics — `key[0] = 2` on an empty slice, or `key[:32]` on a slice
shorter than 32 bytes, index out of range. -/
def dehashHandler (source : List Nat → Except GoErr (List Nat)) (keyStr : String) :
    Option (Nat × List Nat) :=
  match hexDecodeStd keyStr with
  | none => some (400, [])
  | some key =>
    if key.length < 32 then none
    else
      match source ((2 :: key.drop 1).take 32) with
      | .error _ => some (404, [])
      | .ok val => some (200, val)

/-- The /hint/ route handler (src/unnamed/part_001 lines 155-176) applied to
the decoded path suffix: reject hints containing none of the five recognised
hint-type strings, otherwise delegate and answer "ok" unless the handler
errors. -/
def hintRoute (handler : String → Except String Unit) (hint : String) : Nat × String :=
  if ¬(strContains hint HintL1BlockHeader ∨
       strContains hint HintL1Transactions ∨
       strContains hint HintL1Receipts ∨
       strContains hint HintL1Blob ∨
       strContains hint HintL1KZGPointEvaluation) then (400, "")
  else
    match handler hint with
    | .error _ => (400, "")
    | .ok _ => (200, "ok")

/-- Prefetcher.Hint (src/unnamed/part_002 lines 61-65) as seen by the /hint/
route: it records the hint in `lastHint` and always returns nil. -/
def prefetcherHintHandler (hint : String) : Except String Unit × String := (.ok (), hint)

-- Store-shift lemmas: prefetch writes a store-independent journal prefix -----

theorem foldl_kvPut_shift {α : Type} (key val : α → List Nat) (l : List α) :
    ∀ s : Store,
      l.foldl (fun acc x => kvPut (key x) (val x) acc) s =
        l.foldl (fun acc x => kvPut (key x) (val x) acc) [] ++ s := by
  induction l with
  | nil => intro s; simp
  | cons x t ih =>
    intro s
    simp only [List.foldl_cons]
    rw [ih (kvPut (key x) (val x) s), ih (kvPut (key x) (val x) [])]
    simp [kvPut]

theorem foldl_kvPut2_shift {α : Type} (k1 v1 k2 v2 : α → List Nat) (l : List α) :
    ∀ s : Store,
      l.foldl (fun acc x => kvPut (k2 x) (v2 x) (kvPut (k1 x) (v1 x) acc)) s =
        l.foldl (fun acc x => kvPut (k2 x) (v2 x) (kvPut (k1 x) (v1 x) acc)) [] ++ s := by
  induction l with
  | nil => intro s; simp
  | cons x t ih =>
    intro s
    simp only [List.foldl_cons]
    rw [ih (kvPut (k2 x) (v2 x) (kvPut (k1 x) (v1 x) s)),
        ih (kvPut (k2 x) (v2 x) (kvPut (k1 x) (v1 x) []))]
    simp [kvPut]

theorem storeTrieNodes_shift (o : Oracle) (values : List (List Nat)) (s : Store) :
    storeTrieNodes o values s = storeTrieNodes o values [] ++ s := by
  unfold storeTrieNodes
  exact foldl_kvPut_shift (fun node => preimageKey 2 (o.keccak node)) (fun node => node) _ s

/-- The prefetcher never reads the store: its outcome is the outcome on the
empty store, and its writes are a store-independent journal prefix. -/
theorem prefetch_shift (o : Oracle) (hint : String) (s : Store) :
    prefetch o hint s = ((prefetch o hint []).1, (prefetch o hint []).2 ++ s) := by
  unfold prefetch
  cases hp : parseHint hint with
  | error e => simp
  | ok tb =>
    obtain ⟨t, bs⟩ := tb
    by_cases ht1 : t = HintL1BlockHeader
    · simp only [ht1, if_true]
      by_cases hlen : bs.length ≠ 32
      · simp [hlen]
      · simp only [hlen, if_false]
        cases hib : o.infoByHash bs with
        | error e => simp
        | ok header =>
          cases hrlp : header.headerRLP with
          | error e => simp [hrlp]
          | ok data => simp [hrlp, kvPut]
    · simp only [ht1, if_false]
      by_cases ht2 : t = HintL1Transactions
      · simp only [ht2, if_true]
        by_cases hlen : bs.length ≠ 32
        · simp [hlen]
        · simp only [hlen, if_false]
          cases hit : o.infoAndTxsByHash bs with
          | error e => simp
          | ok itx =>
            obtain ⟨info, txs⟩ := itx
            cases henc : o.encodeTxs txs with
            | error e => simp [henc]
            | ok otxs => simpa [henc] using storeTrieNodes_shift o otxs s
      · simp only [ht2, if_false]
        by_cases ht3 : t = HintL1Receipts
        · simp only [ht3, if_true]
          by_cases hlen : bs.length ≠ 32
          · simp [hlen]
          · simp only [hlen, if_false]
            cases hfr : o.fetchReceipts bs with
            | error e => simp
            | ok irc =>
              obtain ⟨info, rcpts⟩ := irc
              cases henc : o.encodeReceipts rcpts with
              | error e => simp [henc]
              | ok orc => simpa [henc] using storeTrieNodes_shift o orc s
        · simp only [ht3, if_false]
          by_cases ht4 : t = HintL1Blob
          · simp only [ht4, if_true]
            by_cases hlen : bs.length ≠ 48
            · simp [hlen]
            · simp only [hlen, if_false]
              cases hsc : o.getBlobSidecars (beUint ((bs.drop 40).take 8))
                  [(bs.take 32, beUint ((bs.drop 32).take 8))] with
              | error e => simp
              | ok sidecars =>
                by_cases h1 : sidecars.length = 1
                · obtain ⟨sc, rfl⟩ := List.length_eq_one.mp h1
                  simp only [List.length_singleton, ne_eq, not_true_eq_false, dite_false,
                    List.head_cons, dite_eq_ite, if_false]
                  rw [foldl_kvPut2_shift
                        (fun i => preimageKey 2 (o.keccak (blobFieldKey sc.kzgCommitment i)))
                        (fun i => blobFieldKey sc.kzgCommitment i)
                        (fun i => preimageKey 4 (o.keccak (blobFieldKey sc.kzgCommitment i)))
                        (fun i => (sc.blob.drop (32 * i)).take 32)
                        (List.range 4096) (kvPut (preimageKey 3 (bs.take 32)) sc.kzgCommitment s),
                      foldl_kvPut2_shift
                        (fun i => preimageKey 2 (o.keccak (blobFieldKey sc.kzgCommitment i)))
                        (fun i => blobFieldKey sc.kzgCommitment i)
                        (fun i => preimageKey 4 (o.keccak (blobFieldKey sc.kzgCommitment i)))
                        (fun i => (sc.blob.drop (32 * i)).take 32)
                        (List.range 4096) (kvPut (preimageKey 3 (bs.take 32)) sc.kzgCommitment [])]
                  simp [kvPut]
                · simp [h1]
          · simp only [ht4, if_false]
            by_cases ht5 : t = HintL1KZGPointEvaluation
            · simp [ht5, kvPut]
            · simp [ht5]

theorem prefetch_fst (o : Oracle) (hint : String) (s : Store) :
    (prefetch o hint s).1 = (prefetch o hint []).1 := by
  rw [prefetch_shift]

-- Serving-loop lemmas ---------------------------------------------------------

theorem getPreimageLoop_exit (o : Oracle) (hint : String) (k : List Nat)
    (r : Except GoErr (List Nat)) (s : Store)
    (h : ¬(r = .error .notFound ∧ hint ≠ "")) :
    ∀ fuel, getPreimageLoop o hint k fuel r s = some (r, s) := by
  intro fuel
  cases fuel <;> simp [getPreimageLoop, h]

theorem getPreimageLoop_enter (o : Oracle) (hint : String) (k : List Nat)
    (r : Except GoErr (List Nat)) (s : Store) (fuel : Nat)
    (h : r = .error .notFound ∧ hint ≠ "") :
    getPreimageLoop o hint k (fuel + 1) r s =
      match prefetch o hint s with
      | (.error e, s1) => some (.error (.msg ("prefetch failed: " ++ e)), s1)
      | (.ok _, s1) => getPreimageLoop o hint k fuel (kvGet s1 k) s1 := by
  simp [getPreimageLoop, h]

/-- If the recorded hint's prefetch succeeds without producing the requested
key, the serving loop makes no progress: the miss invariant is preserved
forever. -/
theorem diverges_of_futile_hint (o : Oracle) (hint : String) (k : List Nat) (s : Store)
    (hne : hint ≠ "") (h0 : kvGet s k = .error .notFound)
    (hok : (prefetch o hint []).1 = .ok ())
    (hmiss : kvGet (prefetch o hint []).2 k = .error .notFound) :
    GetPreimageDiverges o hint k s := by
  intro fuel
  unfold GetPreimage
  induction fuel generalizing s with
  | zero =>
    simp [getPreimageLoop, h0, hne]
  | succ n ih =>
    rw [getPreimageLoop_enter o hint k _ s n ⟨h0, hne⟩]
    have hps := prefetch_shift o hint s
    have hget : kvGet ((prefetch o hint []).2 ++ s) k = .error .notFound := by
      rw [kvGet_append, hmiss, h0]
    cases hpe : prefetch o hint [] with
    | mk r1 ws =>
      rw [hpe] at hps hok hmiss
      cases r1 with
      | error e => simp at hok
      | ok u =>
        rw [hps]
        simp only
        rw [hpe] at hget
        exact hget ▸ ih (ws ++ s) hget

theorem kvGet_error_eq_notFound (s : Store) (k : List Nat) (e : GoErr)
    (h : kvGet s k = .error e) : e = .notFound := by
  induction s with
  | nil =>
    rw [kvGet] at h
    cases h
    rfl
  | cons p rest ih =>
    obtain ⟨pk, pv⟩ := p
    by_cases hk : pk = k
    · simp [kvGet, hk] at h
    · rw [kvGet, if_neg hk] at h
      exact ih h

-- Claim C9 --------------------------------------------------------------------

/-- C9: prefetch is idempotent.  Against the same deterministic upstream
(`Oracle` functions are pure), running `prefetch h` a second time on the
resulting store produces the same Go error value and a store with identical
contents: every key reads the same. -/
theorem prefetch_idempotent (o : Oracle) (h : String) (s : Store) :
    (prefetch o h ((prefetch o h s).2)).1 = (prefetch o h s).1 ∧
    ∀ k, kvGet ((prefetch o h ((prefetch o h s).2)).2) k = kvGet ((prefetch o h s).2) k := by
  have h1 := prefetch_shift o h s
  have h2 := prefetch_shift o h ((prefetch o h s).2)
  constructor
  · rw [h2, h1]
  · intro k
    rw [h2, h1]
    exact kvGet_append_self (prefetch o h []).2 s k

-- Claim C5 --------------------------------------------------------------------

/-- C5: GetPreimage first attempts `store.Get(k)` and returns any hit
unchanged (first conjunct); a miss with no recorded hint is returned as
`ErrNotFound` (second); a miss with a recorded hint triggers `prefetch`,
whose failure is returned wrapped with "prefetch failed" (third) and whose
success is followed by a re-read whose hit is returned (fourth). -/
theorem GetPreimage_loop_spec (o : Oracle) (hint : String) (k : List Nat) (s : Store) :
    (∀ v, kvGet s k = .ok v → ∀ fuel, GetPreimage o hint k fuel s = some (.ok v, s)) ∧
    (kvGet s k = .error .notFound → hint = "" →
      ∀ fuel, GetPreimage o hint k fuel s = some (.error .notFound, s)) ∧
    (kvGet s k = .error .notFound → hint ≠ "" →
      ∀ e s1, prefetch o hint s = (.error e, s1) →
      ∀ fuel, GetPreimage o hint k (fuel + 1) s =
        some (.error (.msg ("prefetch failed: " ++ e)), s1)) ∧
    (kvGet s k = .error .notFound → hint ≠ "" →
      ∀ s1, prefetch o hint s = (.ok (), s1) → ∀ v, kvGet s1 k = .ok v →
      ∀ fuel, GetPreimage o hint k (fuel + 1) s = some (.ok v, s1)) := by
  refine ⟨?_, ?_, ?_, ?_⟩
  · intro v hv fuel
    unfold GetPreimage
    rw [hv]
    exact getPreimageLoop_exit o hint k _ s (by simp) fuel
  · intro hv hh fuel
    unfold GetPreimage
    rw [hv]
    exact getPreimageLoop_exit o hint k _ s (by simp [hh]) fuel
  · intro hv hh e s1 hpe fuel
    unfold GetPreimage
    rw [hv, getPreimageLoop_enter o hint k _ s fuel ⟨rfl, hh⟩, hpe]
  · intro hv hh s1 hpe v hv1 fuel
    unfold GetPreimage
    rw [hv, getPreimageLoop_enter o hint k _ s fuel ⟨rfl, hh⟩, hpe]
    simp only
    rw [hv1]
    exact getPreimageLoop_exit o hint k _ s1 (by simp) fuel

-- Claim C1 --------------------------------------------------------------------

/-- A deterministic mock upstream used in the concrete scenarios: header
fetches always succeed with RLP `[7]`, everything else fails. -/
def mockOracle : Oracle where
  keccak := fun _ => List.replicate 32 0
  infoByHash := fun _ => .ok ⟨.ok [7]⟩
  infoAndTxsByHash := fun _ => .error "unused"
  fetchReceipts := fun _ => .error "unused"
  getBlobSidecars := fun _ _ => .error "unused"
  kzgOk := fun _ => true
  encodeTxs := fun _ => .error "unused"
  encodeReceipts := fun _ => .error "unused"
  writeTrie := fun _ => []

/-- A well-formed block-header hint for the all-zero block hash. -/
def exHintC1 : String :=
  "l1-block-header 0x0000000000000000000000000000000000000000000000000000000000000000"

/-- A key the header prefetch never writes. -/
def exKeyC1 : List Nat := List.replicate 32 9

/-- C1 counterexample: the loop in GetPreimage CAN run forever.  With the
recorded hint `exHintC1`, every prefetch succeeds (the upstream is
deterministic and the store write succeeds), yet the requested key never
appears and nothing ever clears the hint, so no fuel bound suffices: the
claim that the loop always terminates is false. -/
theorem GetPreimage_can_run_forever :
    GetPreimageDiverges mockOracle exHintC1 exKeyC1 [] := by
  apply diverges_of_futile_hint
  · decide
  · rfl
  · decide
  · decide

/-- C1 amended: the loop terminates if and only if the key is already
present, the hint is empty, the prefetch fails, or the (store-independent)
prefetch writes contain the requested key; the hint is never cleared, and a
succeeding prefetch that does not produce the key loops forever. -/
theorem GetPreimage_termination_iff (o : Oracle) (hint : String) (k : List Nat) (s : Store) :
    GetPreimageDiverges o hint k s ↔
      (kvGet s k = .error .notFound ∧ hint ≠ "" ∧
       (prefetch o hint []).1 = .ok () ∧
       kvGet (prefetch o hint []).2 k = .error .notFound) := by
  constructor
  · intro hdiv
    cases hg : kvGet s k with
    | ok v =>
      have := hdiv 0
      rw [GetPreimage, hg, getPreimageLoop_exit o hint k _ s (by simp)] at this
      cases this
    | error ge =>
      have hgn : ge = .notFound := kvGet_error_eq_notFound s k ge hg
      subst hgn
      by_cases hh : hint = ""
      · have := hdiv 0
        rw [GetPreimage, hg, getPreimageLoop_exit o hint k _ s (by simp [hh])] at this
        cases this
      · cases hpe : prefetch o hint [] with
        | mk r1 ws =>
          cases r1 with
          | error e =>
            have := hdiv 1
            rw [GetPreimage, hg, getPreimageLoop_enter o hint k _ s 0 ⟨rfl, hh⟩,
                prefetch_shift, hpe] at this
            simp at this
          | ok u =>
            cases hw : kvGet ws k with
            | ok v =>
              have := hdiv 1
              rw [GetPreimage, hg, getPreimageLoop_enter o hint k _ s 0 ⟨rfl, hh⟩,
                  prefetch_shift, hpe] at this
              simp only at this
              rw [kvGet_append, hw,
                  getPreimageLoop_exit o hint k _ (ws ++ s) (by simp)] at this
              cases this
            | error ge2 =>
              have hgn2 : ge2 = .notFound := kvGet_error_eq_notFound ws k ge2 hw
              subst hgn2
              exact ⟨rfl, hh, rfl, rfl⟩
  · rintro ⟨hg, hh, hok, hmiss⟩
    exact diverges_of_futile_hint o hint k s hh hg hok hmiss

/-- C5 witness: the four behaviours of the serving loop at concrete inputs:
an immediate hit, a miss with no hint, a failing prefetch (unparsable hint)
wrapped with "prefetch failed", and a successful prefetch whose re-read
serves the key. -/
theorem GetPreimage_loop_spec_witness :
    GetPreimage mockOracle "" [1] 0 [([1], [2])] = some (.ok [2], [([1], [2])]) ∧
    GetPreimage mockOracle "" [1] 3 [] = some (.error .notFound, []) ∧
    GetPreimage mockOracle "bogus" [1] 1 [] =
      some (.error (.msg ("prefetch failed: " ++ "unsupported hint: bogus")), []) ∧
    GetPreimage mockOracle "l1-kzg-point-evaluation 0x" (2 :: List.replicate 31 0) 1 [] =
      some (.ok [], [(6 :: List.replicate 31 0, [1]), (2 :: List.replicate 31 0, [])]) :=
  ⟨(GetPreimage_loop_spec mockOracle "" [1] [([1], [2])]).1 [2] (by decide) 0,
   (GetPreimage_loop_spec mockOracle "" [1] []).2.1 (by decide) rfl 3,
   (GetPreimage_loop_spec mockOracle "bogus" [1] []).2.2.1 (by decide) (by decide)
     "unsupported hint: bogus" [] (by decide) 0,
   (GetPreimage_loop_spec mockOracle "l1-kzg-point-evaluation 0x"
       (2 :: List.replicate 31 0) []).2.2.2 (by decide) (by decide)
     [(6 :: List.replicate 31 0, [1]), (2 :: List.replicate 31 0, [])] (by decide)
     [] (by decide) 0⟩

-- Claim C7 --------------------------------------------------------------------

/-- C7: the local preimage source serves the configured L1 head hash (a
32-byte `common.Hash`) under the local key with index 1, and answers
`ErrNotFound` for every other key. -/
theorem LocalPreimageSource_Get_spec (cfg : Config) (hl : cfg.l1Head.length = 32) :
    LocalPreimageSource.Get cfg (localIndexKey 1) = .ok cfg.l1Head ∧
    (∃ v, LocalPreimageSource.Get cfg (localIndexKey 1) = .ok v ∧ v.length = 32) ∧
    ∀ k, k ≠ localIndexKey 1 → LocalPreimageSource.Get cfg k = .error .notFound := by
  refine ⟨?_, ⟨cfg.l1Head, ?_, hl⟩, ?_⟩
  · simp [LocalPreimageSource.Get, l1HeadKey]
  · simp [LocalPreimageSource.Get, l1HeadKey]
  · intro k hk
    simp [LocalPreimageSource.Get, l1HeadKey, hk]

/-- C7 witness: a concrete 32-byte L1 head is served under the index-1 local
key and a keccak-tagged key misses. -/
theorem LocalPreimageSource_Get_spec_witness :
    LocalPreimageSource.Get ⟨List.replicate 32 7⟩ (localIndexKey 1) =
      .ok (List.replicate 32 7) ∧
    LocalPreimageSource.Get ⟨List.replicate 32 7⟩ (preimageKey 2 (List.replicate 32 0)) =
      .error .notFound :=
  ⟨(LocalPreimageSource_Get_spec ⟨List.replicate 32 7⟩ (by decide)).1,
   (LocalPreimageSource_Get_spec ⟨List.replicate 32 7⟩ (by decide)).2.2 _ (by decide)⟩

-- Claim C6 --------------------------------------------------------------------

/-- C6 counterexample: the server does not consult the Local Source for a
Local-tagged key.  With an empty store, both the offline source (`kv.Get`)
and the online source (the prefetcher's GetPreimage, here with no recorded
hint) answer `ErrNotFound` for the L1-head local key, while
`LocalPreimageSource.Get` would serve the configured head — so the result
does not come from the Local Source, which `PreimageServer` never wires in. -/
theorem local_source_not_consulted :
    offlinePreimageSource [] l1HeadKey = .error .notFound ∧
    GetPreimage mockOracle "" l1HeadKey 1 [] = some (.error .notFound, []) ∧
    LocalPreimageSource.Get ⟨List.replicate 32 9⟩ l1HeadKey = .ok (List.replicate 32 9) := by
  refine ⟨rfl, by decide, by decide⟩

/-- C6 amended: `get_preimage` for a Local-tagged key does NOT consult the
Local Source; it is answered by the normal path — the store alone — so a
Local-tagged key absent from the store yields `ErrNotFound` in both server
modes even though `LocalPreimageSource.Get` would serve the L1 head for the
index-1 key. -/
theorem local_tag_served_from_store_only (cfg : Config) (o : Oracle) (s : Store)
    (k : List Nat) (_htag : k.head? = some 1) (hmiss : kvGet s k = .error .notFound) :
    offlinePreimageSource s k = .error .notFound ∧
    (∀ fuel, GetPreimage o "" k fuel s = some (.error .notFound, s)) ∧
    (k = l1HeadKey → LocalPreimageSource.Get cfg k = .ok cfg.l1Head) := by
  refine ⟨hmiss, ?_, ?_⟩
  · intro fuel
    unfold GetPreimage
    rw [hmiss]
    exact getPreimageLoop_exit o "" k _ s (by simp) fuel
  · intro hk
    rw [hk, LocalPreimageSource.Get, if_pos rfl]

/-- C6 amended witness: the L1-head local key, an empty store. -/
theorem local_tag_served_from_store_only_witness :
    l1HeadKey.head? = some 1 ∧
    offlinePreimageSource [] l1HeadKey = .error .notFound ∧
    GetPreimage mockOracle "" l1HeadKey 2 [] = some (.error .notFound, []) ∧
    LocalPreimageSource.Get ⟨List.replicate 32 4⟩ l1HeadKey = .ok (List.replicate 32 4) :=
  ⟨by decide,
   (local_tag_served_from_store_only ⟨List.replicate 32 4⟩ mockOracle [] l1HeadKey
      (by decide) rfl).1,
   (local_tag_served_from_store_only ⟨List.replicate 32 4⟩ mockOracle [] l1HeadKey
      (by decide) rfl).2.1 2,
   (local_tag_served_from_store_only ⟨List.replicate 32 4⟩ mockOracle [] l1HeadKey
      (by decide) rfl).2.2 rfl⟩

-- Claim C3 --------------------------------------------------------------------

/-- A preimage source with nothing to serve. -/
def emptySource : List Nat → Except GoErr (List Nat) := fun _ => .error .notFound

/-- A preimage source serving `[5]` for the 32-byte key `2, 0, …, 0`. -/
def oneKeySource : List Nat → Except GoErr (List Nat) := fun k =>
  if k = 2 :: List.replicate 31 0 then .ok [5] else .error .notFound

/-- C3 counterexample: a malformed key does not always get a 400 response.
For the path suffixes "" and "00" — valid hex that decodes to fewer than 32
bytes, hence malformed keys — the Go handler panics (`key[0] = 2` on an
empty slice, `key[:32]` out of range), modelled as `none`: no status is
written at all, in particular not 400. -/
theorem dehash_short_key_panics :
    dehashHandler emptySource "" = none ∧ dehashHandler emptySource "00" = none := by
  exact ⟨by decide, by decide⟩

/-- C3 amended: non-hex input gets 400; valid hex shorter than 32 bytes
makes the handler panic (no response, modelled `none`); for valid hex of at
least 32 bytes the first byte is rewritten to tag 2 (Keccak256) and the
first 32 bytes are looked up — 200 with the preimage bytes on a hit, 404 on
any lookup failure. -/
theorem dehashHandler_spec (source : List Nat → Except GoErr (List Nat)) (keyStr : String) :
    (hexDecodeStd keyStr = none → dehashHandler source keyStr = some (400, [])) ∧
    (∀ key, hexDecodeStd keyStr = some key → key.length < 32 →
      dehashHandler source keyStr = none) ∧
    (∀ key, hexDecodeStd keyStr = some key → 32 ≤ key.length →
      (∀ v, source ((2 :: key.drop 1).take 32) = .ok v →
        dehashHandler source keyStr = some (200, v)) ∧
      (∀ e, source ((2 :: key.drop 1).take 32) = .error e →
        dehashHandler source keyStr = some (404, []))) := by
  refine ⟨?_, ?_, ?_⟩
  · intro hd
    rw [dehashHandler, hd]
  · intro key hd hlt
    rw [dehashHandler, hd]
    simp [hlt]
  · intro key hd hge
    constructor
    · intro v hv
      have hv2 : source (2 :: List.take 31 key.tail) = .ok v := by simpa using hv
      rw [dehashHandler, hd]
      simp [Nat.not_lt.mpr hge, hv2]
    · intro e he
      have he2 : source (2 :: List.take 31 key.tail) = .error e := by simpa using he
      rw [dehashHandler, hd]
      simp [Nat.not_lt.mpr hge, he2]

/-- C3 amended witness: 400 for non-hex input, a panic for a short key, 200
with the stored bytes for a present 32-byte key, 404 for an absent one. -/
theorem dehashHandler_spec_witness :
    dehashHandler emptySource "zz" = some (400, []) ∧
    dehashHandler emptySource "0011" = none ∧
    dehashHandler oneKeySource
      "0000000000000000000000000000000000000000000000000000000000000000" =
      some (200, [5]) ∧
    dehashHandler emptySource
      "0000000000000000000000000000000000000000000000000000000000000000" =
      some (404, []) :=
  ⟨(dehashHandler_spec emptySource "zz").1 (by decide),
   (dehashHandler_spec emptySource "0011").2.1 [0, 17] (by decide) (by decide),
   ((dehashHandler_spec oneKeySource
       "0000000000000000000000000000000000000000000000000000000000000000").2.2
     (List.replicate 32 0) (by decide) (by decide)).1 [5] (by decide),
   ((dehashHandler_spec emptySource
       "0000000000000000000000000000000000000000000000000000000000000000").2.2
     (List.replicate 32 0) (by decide) (by decide)).2 .notFound (by decide)⟩

-- Claim C4 --------------------------------------------------------------------

/-- C4 counterexample: the /hint/ route does not validate that the hint TYPE
is one of the five recognised strings, and malformed hints are not rejected:
the hint "x-l1-blob 0xzz" has the unrecognised type "x-l1-blob" and an
undecodable payload, yet the substring check passes (it contains "l1-blob")
and the prefetcher's hint handler never fails, so the response is
`200 "ok"`, not 400. -/
theorem hint_route_unvalidated :
    hintRoute (fun h => (prefetcherHintHandler h).1) "x-l1-blob 0xzz" = (200, "ok") ∧
    parseHint "x-l1-blob 0xzz" = .error "invalid bytes: 0xzz" ∧
    "x-l1-blob" ∉ [HintL1BlockHeader, HintL1Transactions, HintL1Receipts,
                   HintL1Blob, HintL1KZGPointEvaluation] := by
  exact ⟨by decide, by decide, by decide⟩

/-- C4 amended: the route checks only that the hint string CONTAINS one of
the five recognised hint-type substrings; when it does, the delegate —
`Prefetcher.Hint`, which records the hint and always returns nil — makes the
response `200 "ok"`, and otherwise the response is 400 with an empty body. -/
theorem hintRoute_spec (hint : String) :
    (hintRoute (fun h => (prefetcherHintHandler h).1) hint = (200, "ok") ↔
      (strContains hint HintL1BlockHeader ∨ strContains hint HintL1Transactions ∨
       strContains hint HintL1Receipts ∨ strContains hint HintL1Blob ∨
       strContains hint HintL1KZGPointEvaluation)) ∧
    (¬(strContains hint HintL1BlockHeader ∨ strContains hint HintL1Transactions ∨
       strContains hint HintL1Receipts ∨ strContains hint HintL1Blob ∨
       strContains hint HintL1KZGPointEvaluation) →
      hintRoute (fun h => (prefetcherHintHandler h).1) hint = (400, "")) := by
  by_cases h : (strContains hint HintL1BlockHeader ∨ strContains hint HintL1Transactions ∨
      strContains hint HintL1Receipts ∨ strContains hint HintL1Blob ∨
      strContains hint HintL1KZGPointEvaluation)
  · refine ⟨⟨fun _ => h, fun _ => ?_⟩, fun hn => absurd h hn⟩
    rw [hintRoute, if_neg (not_not_intro h)]
    rfl
  · refine ⟨⟨fun hr => ?_, fun hc => absurd hc h⟩, fun _ => ?_⟩
    · rw [hintRoute, if_pos h] at hr
      cases hr
    · rw [hintRoute, if_pos h]

-- Claim C8 --------------------------------------------------------------------

/-- C8: an l1-kzg-point-evaluation hint with payload `input` runs the
in-process precompile, writes `Keccak256(h) ↦ input` and `KZGEval(h) ↦ 0x01`
on success / `0x00` on failure for `h = keccak256(input)`, and the prefetch
itself succeeds in both cases. -/
theorem prefetch_kzg_point_evaluation (o : Oracle) (hint : String) (s : Store)
    (input : List Nat) (hp : parseHint hint = .ok (HintL1KZGPointEvaluation, input)) :
    prefetch o hint s =
      (.ok (), (preimageKey 6 (o.keccak input), if o.kzgOk input then [1] else [0]) ::
               (preimageKey 2 (o.keccak input), input) :: s) ∧
    kvGet (prefetch o hint s).2 (preimageKey 2 (o.keccak input)) = .ok input ∧
    kvGet (prefetch o hint s).2 (preimageKey 6 (o.keccak input)) =
      .ok (if o.kzgOk input then [1] else [0]) := by
  have h1 : HintL1KZGPointEvaluation ≠ HintL1BlockHeader := by decide
  have h2 : HintL1KZGPointEvaluation ≠ HintL1Transactions := by decide
  have h3 : HintL1KZGPointEvaluation ≠ HintL1Receipts := by decide
  have h4 : HintL1KZGPointEvaluation ≠ HintL1Blob := by decide
  have hpe : prefetch o hint s =
      (.ok (), (preimageKey 6 (o.keccak input), if o.kzgOk input then [1] else [0]) ::
               (preimageKey 2 (o.keccak input), input) :: s) := by
    rw [prefetch, hp]
    simp [h1, h2, h3, h4, kvPut]
  refine ⟨hpe, ?_, ?_⟩
  · rw [hpe]
    simp only
    rw [kvGet, if_neg (by simp [preimageKey]), kvGet, if_pos rfl]
  · rw [hpe]
    simp only
    rw [kvGet, if_pos rfl]

/-- An upstream whose KZG precompile always reports failure, as for garbage
input. -/
def kzgFailOracle : Oracle := { mockOracle with kzgOk := fun _ => false }

/-- C8 witness: the spec's concrete scenario — a kzg hint with garbage
input; the input is retrievable under its Keccak256 key and the KZGEval key
holds `0x00`. -/
theorem prefetch_kzg_point_evaluation_witness :
    parseHint "l1-kzg-point-evaluation 0x1234" = .ok (HintL1KZGPointEvaluation, [18, 52]) ∧
    kvGet (prefetch kzgFailOracle "l1-kzg-point-evaluation 0x1234" []).2
        (preimageKey 2 (kzgFailOracle.keccak [18, 52])) = .ok [18, 52] ∧
    kvGet (prefetch kzgFailOracle "l1-kzg-point-evaluation 0x1234" []).2
        (preimageKey 6 (kzgFailOracle.keccak [18, 52])) = .ok [0] :=
  ⟨by decide,
   (prefetch_kzg_point_evaluation kzgFailOracle "l1-kzg-point-evaluation 0x1234" []
      [18, 52] (by decide)).2.1,
   (prefetch_kzg_point_evaluation kzgFailOracle "l1-kzg-point-evaluation 0x1234" []
      [18, 52] (by decide)).2.2⟩

-- Claim C10 -------------------------------------------------------------------

/-- C10: when the blob-sidecar fetch fails, or returns any number of
sidecars other than one, the l1-blob prefetch returns an error before
issuing any Put: the store it hands back is exactly the store it was given. -/
theorem prefetch_blob_fetch_error (o : Oracle) (hint : String) (s : Store) (bs : List Nat)
    (hp : parseHint hint = .ok (HintL1Blob, bs)) (hlen : bs.length = 48)
    (hbad : ∀ l, o.getBlobSidecars (beUint ((bs.drop 40).take 8))
        [(bs.take 32, beUint ((bs.drop 32).take 8))] = .ok l → l.length ≠ 1) :
    prefetch o hint s = (.error "failed to fetch blob sidecars", s) := by
  have h1 : HintL1Blob ≠ HintL1BlockHeader := by decide
  have h2 : HintL1Blob ≠ HintL1Transactions := by decide
  have h3 : HintL1Blob ≠ HintL1Receipts := by decide
  rw [prefetch, hp]
  simp only [h1, h2, h3, if_false, if_true, if_pos rfl, hlen, ne_eq,
    not_true_eq_false, not_false_eq_true, ite_false, ite_true]
  cases hsc : o.getBlobSidecars (beUint ((bs.drop 40).take 8))
      [(bs.take 32, beUint ((bs.drop 32).take 8))] with
  | error e => simp
  | ok l =>
    have := hbad l hsc
    simp [this]

/-- An upstream returning two sidecars for any blob query. -/
def twoSidecarOracle : Oracle :=
  { mockOracle with getBlobSidecars := fun _ _ => .ok [⟨[], []⟩, ⟨[], []⟩] }

/-- A well-formed 48-byte blob hint (all-zero payload). -/
def exBlobHint : String :=
  "l1-blob 0x000000000000000000000000000000000000000000000000000000000000000000000000000000000000000000000000"

/-- C10 witness: a failing fetch and a two-sidecar answer both leave the
store untouched. -/
theorem prefetch_blob_fetch_error_witness :
    prefetch mockOracle exBlobHint [([1], [2])] =
      (.error "failed to fetch blob sidecars", [([1], [2])]) ∧
    prefetch twoSidecarOracle exBlobHint [] =
      (.error "failed to fetch blob sidecars", []) :=
  ⟨prefetch_blob_fetch_error mockOracle exBlobHint [([1], [2])]
     (List.replicate 48 0) (by decide) (by decide)
     (fun l hl => by rw [show mockOracle.getBlobSidecars
         (beUint (((List.replicate 48 0 : List Nat).drop 40).take 8))
         [((List.replicate 48 0 : List Nat).take 32,
           beUint (((List.replicate 48 0 : List Nat).drop 32).take 8))] =
         .error "unused" from rfl] at hl; cases hl),
   prefetch_blob_fetch_error twoSidecarOracle exBlobHint []
     (List.replicate 48 0) (by decide) (by decide)
     (fun l hl => by
       rw [show twoSidecarOracle.getBlobSidecars
           (beUint (((List.replicate 48 0 : List Nat).drop 40).take 8))
           [((List.replicate 48 0 : List Nat).take 32,
             beUint (((List.replicate 48 0 : List Nat).drop 32).take 8))] =
           .ok [⟨[], []⟩, ⟨[], []⟩] from rfl] at hl
       injection hl with h
       rw [h.symm]
       decide)⟩

-- Claim C2: bookkeeping for the 4096-way blob expansion -----------------------

/-- The two journal entries the blob loop writes for field element `i`
(newest first): the Blob-tagged field element and the Keccak256-tagged
80-byte blob key. -/
def blobEntry (o : Oracle) (c blob : List Nat) (i : Nat) : Store :=
  [(preimageKey 4 (o.keccak (blobFieldKey c i)), (blob.drop (32 * i)).take 32),
   (preimageKey 2 (o.keccak (blobFieldKey c i)), blobFieldKey c i)]

/-- The journal prefix written by the blob loop over the index list `l`. -/
def blobEntries (o : Oracle) (c blob : List Nat) : List Nat → Store
  | [] => []
  | i :: t => blobEntries o c blob t ++ blobEntry o c blob i

theorem blob_foldl_eq (o : Oracle) (c blob : List Nat) (l : List Nat) :
    ∀ s : Store,
      l.foldl (fun acc i =>
        kvPut (preimageKey 4 (o.keccak (blobFieldKey c i))) ((blob.drop (32 * i)).take 32)
          (kvPut (preimageKey 2 (o.keccak (blobFieldKey c i))) (blobFieldKey c i) acc)) s =
      blobEntries o c blob l ++ s := by
  induction l with
  | nil => intro s; simp [blobEntries]
  | cons i t ih =>
    intro s
    simp only [List.foldl_cons]
    rw [ih]
    simp [blobEntries, kvPut, blobEntry]

theorem blobEntries_length (o : Oracle) (c blob : List Nat) (l : List Nat) :
    (blobEntries o c blob l).length = 2 * l.length := by
  induction l with
  | nil => simp [blobEntries]
  | cons i t ih => simp [blobEntries, blobEntry, ih]; omega

theorem mem_keys_blobEntries (o : Oracle) (c blob : List Nat) (l : List Nat) (k : List Nat) :
    k ∈ (blobEntries o c blob l).map Prod.fst ↔
      ∃ i ∈ l, k = preimageKey 4 (o.keccak (blobFieldKey c i)) ∨
               k = preimageKey 2 (o.keccak (blobFieldKey c i)) := by
  induction l with
  | nil => simp [blobEntries]
  | cons j t ih =>
    simp only [blobEntries, List.map_append, List.mem_append, ih, blobEntry,
      List.map_cons, List.map_nil, List.mem_cons, List.mem_singleton,
      List.not_mem_nil, or_false]
    constructor
    · rintro (⟨i, hi, hk⟩ | hk | hk)
      · exact ⟨i, .inr hi, hk⟩
      · exact ⟨j, .inl rfl, .inl hk⟩
      · exact ⟨j, .inl rfl, .inr hk⟩
    · rintro ⟨i, hi | hi, hk⟩
      · subst hi
        rcases hk with hk | hk
        · exact .inr (.inl hk)
        · exact .inr (.inr hk)
      · exact .inl ⟨i, hi, hk⟩

theorem kvGet_not_mem_keys (s : Store) (k : List Nat) (h : k ∉ s.map Prod.fst) :
    kvGet s k = .error .notFound := by
  induction s with
  | nil => rfl
  | cons e rest ih =>
    obtain ⟨ek, ev⟩ := e
    simp only [List.map_cons, List.mem_cons, not_or] at h
    rw [kvGet, if_neg (fun he => h.1 he.symm)]
    exact ih h.2

theorem preimageKey_ne_tags (a b : List Nat) : preimageKey 2 a ≠ preimageKey 4 b := by
  simp [preimageKey]

theorem kvGet_blobEntries (o : Oracle) (c blob : List Nat) (l : List Nat) (i : Nat)
    (hnd : l.Nodup) (hi : i ∈ l)
    (huniq : ∀ j ∈ l, (o.keccak (blobFieldKey c j)).drop 1 =
      (o.keccak (blobFieldKey c i)).drop 1 → j = i) :
    kvGet (blobEntries o c blob l) (preimageKey 2 (o.keccak (blobFieldKey c i))) =
      .ok (blobFieldKey c i) ∧
    kvGet (blobEntries o c blob l) (preimageKey 4 (o.keccak (blobFieldKey c i))) =
      .ok ((blob.drop (32 * i)).take 32) := by
  induction l with
  | nil => cases hi
  | cons j t ih =>
    rw [List.nodup_cons] at hnd
    rcases List.mem_cons.mp hi with hij | hit
    · subst hij
      have hnotin2 :
          preimageKey 2 (o.keccak (blobFieldKey c i)) ∉ (blobEntries o c blob t).map Prod.fst := by
        rw [mem_keys_blobEntries]
        rintro ⟨j2, hj2, hk | hk⟩
        · exact preimageKey_ne_tags _ _ hk
        · have : j2 = i := huniq j2 (List.mem_cons_of_mem i hj2)
            (by simpa [preimageKey] using hk.symm)
          exact hnd.1 (this ▸ hj2)
      have hnotin4 :
          preimageKey 4 (o.keccak (blobFieldKey c i)) ∉ (blobEntries o c blob t).map Prod.fst := by
        rw [mem_keys_blobEntries]
        rintro ⟨j2, hj2, hk | hk⟩
        · have : j2 = i := huniq j2 (List.mem_cons_of_mem i hj2)
            (by simpa [preimageKey] using hk.symm)
          exact hnd.1 (this ▸ hj2)
        · exact preimageKey_ne_tags _ _ hk.symm
      constructor
      · rw [blobEntries, kvGet_append, kvGet_not_mem_keys _ _ hnotin2]
        simp only [blobEntry, kvGet]
        rw [if_neg (fun h => preimageKey_ne_tags _ _ h.symm)]
        simp [kvGet]
      · rw [blobEntries, kvGet_append, kvGet_not_mem_keys _ _ hnotin4]
        simp only [blobEntry, kvGet]
        simp
    · have huniq2 : ∀ j2 ∈ t, (o.keccak (blobFieldKey c j2)).drop 1 =
          (o.keccak (blobFieldKey c i)).drop 1 → j2 = i :=
        fun j2 hj2 hd => huniq j2 (List.mem_cons_of_mem j hj2) hd
      have := ih hnd.2 hit huniq2
      constructor
      · rw [blobEntries, kvGet_append, this.1]
      · rw [blobEntries, kvGet_append, this.2]

theorem nodup_keys_blobEntries (o : Oracle) (c blob : List Nat) (l : List Nat)
    (hnd : l.Nodup)
    (huniq : ∀ i ∈ l, ∀ j ∈ l, (o.keccak (blobFieldKey c i)).drop 1 =
      (o.keccak (blobFieldKey c j)).drop 1 → i = j) :
    ((blobEntries o c blob l).map Prod.fst).Nodup := by
  induction l with
  | nil => simp [blobEntries]
  | cons j t ih =>
    rw [List.nodup_cons] at hnd
    rw [blobEntries, List.map_append, List.nodup_append]
    refine ⟨ih hnd.2 (fun i hi j2 hj2 => huniq i (List.mem_cons_of_mem j hi)
        j2 (List.mem_cons_of_mem j hj2)), ?_, ?_⟩
    · simp only [blobEntry, List.map_cons, List.map_nil]
      refine List.nodup_cons.mpr ⟨?_, List.nodup_singleton _⟩
      intro hmem
      rcases List.mem_singleton.mp hmem with h
      exact preimageKey_ne_tags _ _ h.symm
    · intro a ha hb
      rw [mem_keys_blobEntries] at ha
      obtain ⟨i, hit, hk⟩ := ha
      simp only [blobEntry, List.map_cons, List.map_nil, List.mem_cons,
        List.not_mem_nil, or_false, List.mem_singleton] at hb
      rcases hk with hk | hk <;> rcases hb with hb | hb
      · rw [hk] at hb
        have : i = j := huniq i (List.mem_cons_of_mem j hit) j (List.mem_cons_self j t)
          (by simpa [preimageKey] using hb)
        exact hnd.1 (this ▸ hit)
      · rw [hk] at hb
        exact preimageKey_ne_tags _ _ hb.symm
      · rw [hk] at hb
        exact preimageKey_ne_tags _ _ hb
      · rw [hk] at hb
        have : i = j := huniq i (List.mem_cons_of_mem j hit) j (List.mem_cons_self j t)
          (by simpa [preimageKey] using hb)
        exact hnd.1 (this ▸ hit)

theorem pad48_eq_self (c : List Nat) (h : c.length = 48) : pad48 c = c := by
  rw [pad48, h]
  simp [List.take_of_length_le (le_of_eq h)]

theorem prefetch_blob_eq (o : Oracle) (hint : String) (s : Store) (bs : List Nat)
    (sc : BlobSidecar)
    (hp : parseHint hint = .ok (HintL1Blob, bs)) (hlen : bs.length = 48)
    (hsc : o.getBlobSidecars (beUint ((bs.drop 40).take 8))
      [(bs.take 32, beUint ((bs.drop 32).take 8))] = .ok [sc]) :
    prefetch o hint s =
      (.ok (), blobEntries o sc.kzgCommitment sc.blob (List.range 4096) ++
        ((preimageKey 3 (bs.take 32), sc.kzgCommitment) :: s)) := by
  have h1 : HintL1Blob ≠ HintL1BlockHeader := by decide
  have h2 : HintL1Blob ≠ HintL1Transactions := by decide
  have h3 : HintL1Blob ≠ HintL1Receipts := by decide
  rw [prefetch, hp]
  simp only [h1, h2, h3, if_false, if_true, if_pos rfl, hlen, ne_eq,
    not_true_eq_false, not_false_eq_true, ite_false, ite_true]
  rw [hsc]
  simp only [List.length_singleton, ne_eq, not_true_eq_false, dite_false,
    List.head_cons, dite_eq_ite, if_false]
  rw [blob_foldl_eq o sc.kzgCommitment sc.blob (List.range 4096)
    (kvPut (preimageKey 3 (bs.take 32)) sc.kzgCommitment s)]
  rfl

/-- C2: after a successful l1-blob prefetch for versioned hash
`V = hintBytes[:32]` whose single sidecar carries commitment `C` and blob
`B`, the store maps `Sha256(V)` to the 48-byte commitment; for every
`i < 4096`, with `blobKey = C ‖ zeros(24) ‖ u64be(i)` and
`h = keccak256(blobKey)`, it maps `Keccak256(h)` to `blobKey` and `Blob(h)`
to `B[i*32 : (i+1)*32]`; and exactly `1 + 4096*2` keys are written, all
distinct (given that keccak256 does not collide on the 4096 blob keys after
dropping the overwritten first byte). -/
theorem prefetch_l1blob_expansion (o : Oracle) (hint : String) (s : Store)
    (bs : List Nat) (sc : BlobSidecar)
    (hp : parseHint hint = .ok (HintL1Blob, bs)) (hlen : bs.length = 48)
    (hsc : o.getBlobSidecars (beUint ((bs.drop 40).take 8))
      [(bs.take 32, beUint ((bs.drop 32).take 8))] = .ok [sc])
    (hc : sc.kzgCommitment.length = 48)
    (hinj : ∀ i < 4096, ∀ j < 4096,
      (o.keccak (blobFieldKey sc.kzgCommitment i)).drop 1 =
        (o.keccak (blobFieldKey sc.kzgCommitment j)).drop 1 → i = j) :
    (prefetch o hint s).1 = .ok () ∧
    kvGet (prefetch o hint s).2 (preimageKey 3 (bs.take 32)) = .ok sc.kzgCommitment ∧
    (∀ i < 4096,
      blobFieldKey sc.kzgCommitment i =
        sc.kzgCommitment ++ List.replicate 24 0 ++ u64be i ∧
      kvGet (prefetch o hint s).2
          (preimageKey 2 (o.keccak (blobFieldKey sc.kzgCommitment i))) =
        .ok (blobFieldKey sc.kzgCommitment i) ∧
      kvGet (prefetch o hint s).2
          (preimageKey 4 (o.keccak (blobFieldKey sc.kzgCommitment i))) =
        .ok ((sc.blob.drop (32 * i)).take 32)) ∧
    (prefetch o hint s).2.length = s.length + (1 + 4096 * 2) ∧
    (((prefetch o hint s).2.take (1 + 4096 * 2)).map Prod.fst).Nodup := by
  have hS := prefetch_blob_eq o hint s bs sc hp hlen hsc
  have hAlen : (blobEntries o sc.kzgCommitment sc.blob (List.range 4096)).length = 8192 := by
    rw [blobEntries_length]
    simp
  refine ⟨by rw [hS], ?_, ?_, ?_, ?_⟩
  · rw [hS]
    simp only
    rw [kvGet_append]
    have hnotin : preimageKey 3 (bs.take 32) ∉
        (blobEntries o sc.kzgCommitment sc.blob (List.range 4096)).map Prod.fst := by
      rw [mem_keys_blobEntries]
      rintro ⟨i, hi, hk | hk⟩ <;> simp [preimageKey] at hk
    rw [kvGet_not_mem_keys _ _ hnotin]
    simp [kvGet]
  · intro i hi
    refine ⟨by rw [blobFieldKey, pad48_eq_self sc.kzgCommitment hc], ?_, ?_⟩
    · rw [hS]
      simp only
      rw [kvGet_append]
      rw [(kvGet_blobEntries o sc.kzgCommitment sc.blob (List.range 4096) i
        (List.nodup_range 4096) (List.mem_range.mpr hi)
        (fun j hj hd => hinj j (List.mem_range.mp hj) i hi hd)).1]
    · rw [hS]
      simp only
      rw [kvGet_append]
      rw [(kvGet_blobEntries o sc.kzgCommitment sc.blob (List.range 4096) i
        (List.nodup_range 4096) (List.mem_range.mpr hi)
        (fun j hj hd => hinj j (List.mem_range.mp hj) i hi hd)).2]
  · rw [hS]
    simp only [List.length_append, List.length_cons, hAlen]
    omega
  · rw [hS]
    simp only
    rw [List.take_append_eq_append_take, List.take_of_length_le (by rw [hAlen]; omega),
      hAlen]
    have : (1 + 4096 * 2) - 8192 = 1 := by omega
    rw [this]
    simp only [List.take_cons, List.take_zero, List.map_append, List.map_cons,
      List.map_nil]
    rw [List.nodup_append]
    refine ⟨nodup_keys_blobEntries o sc.kzgCommitment sc.blob (List.range 4096)
      (List.nodup_range 4096)
      (fun i hi j hj hd => hinj i (List.mem_range.mp hi) j (List.mem_range.mp hj) hd),
      List.nodup_singleton _, ?_⟩
    intro a ha hb
    rw [mem_keys_blobEntries] at ha
    obtain ⟨i, _, hk⟩ := ha
    rcases hk with hk | hk <;> rw [hk] at hb <;> simp [preimageKey] at hb

theorem u64be_inj (i j : Nat) (hi : i < 4096) (hj : j < 4096) (h : u64be i = u64be j) :
    i = j := by
  simp only [u64be, List.cons.injEq, and_true] at h
  omega

/-- A deterministic upstream for the blob-expansion scenario: a single
sidecar with commitment `1 × 48` and blob `2 × 131072`; its "keccak" reads
back bytes 48..79 of the input, which is injective on the 4096 blob keys. -/
def blobOracle : Oracle :=
  { mockOracle with
      keccak := fun bs => (bs.drop 48).take 32,
      getBlobSidecars := fun _ _ =>
        .ok [⟨List.replicate 48 1, List.replicate 131072 2⟩] }

theorem blobOracle_keccak_sep : ∀ i, i < 4096 → ∀ j, j < 4096 →
    (blobOracle.keccak (blobFieldKey (List.replicate 48 1) i)).drop 1 =
      (blobOracle.keccak (blobFieldKey (List.replicate 48 1) j)).drop 1 → i = j := by
  have hbk : ∀ i : Nat, (blobOracle.keccak (blobFieldKey (List.replicate 48 1) i)).drop 1 =
      List.replicate 23 0 ++ u64be i := by
    intro i
    have h1 : blobFieldKey (List.replicate 48 1) i =
        List.replicate 48 1 ++ (List.replicate 24 0 ++ u64be i) := by
      rw [blobFieldKey, pad48_eq_self _ (by simp), List.append_assoc]
    have h2 : blobOracle.keccak (blobFieldKey (List.replicate 48 1) i) =
        List.replicate 24 0 ++ u64be i := by
      show ((blobFieldKey (List.replicate 48 1) i).drop 48).take 32 = _
      rw [h1, List.drop_left' (by simp : (List.replicate 48 (1 : Nat)).length = 48)]
      exact List.take_of_length_le (by simp [u64be])
    rw [h2,
      show List.replicate 24 (0 : Nat) = 0 :: List.replicate 23 0 by simp [List.replicate]]
    simp
  intro i hi j hj h
  rw [hbk i, hbk j] at h
  exact u64be_inj i j hi hj (List.append_cancel_left h)

/-- C2 witness: the blob expansion at the concrete all-zero hint and the
`blobOracle` sidecar: the prefetch succeeds, the versioned hash maps to the
commitment under its Sha256 key, field element 5 is retrievable through its
Keccak256 and Blob keys, and exactly `1 + 4096*2` entries were written. -/
theorem prefetch_l1blob_expansion_witness :
    (prefetch blobOracle exBlobHint []).1 = .ok () ∧
    kvGet (prefetch blobOracle exBlobHint []).2 (preimageKey 3 (List.replicate 32 0)) =
      .ok (List.replicate 48 1) ∧
    kvGet (prefetch blobOracle exBlobHint []).2
        (preimageKey 2 (blobOracle.keccak (blobFieldKey (List.replicate 48 1) 5))) =
      .ok (blobFieldKey (List.replicate 48 1) 5) ∧
    (prefetch blobOracle exBlobHint []).2.length = 1 + 4096 * 2 :=
  ⟨(prefetch_l1blob_expansion blobOracle exBlobHint []
      (List.replicate 48 0) ⟨List.replicate 48 1, List.replicate 131072 2⟩
      (by decide) (by decide) rfl (by decide) blobOracle_keccak_sep).1,
   (prefetch_l1blob_expansion blobOracle exBlobHint []
      (List.replicate 48 0) ⟨List.replicate 48 1, List.replicate 131072 2⟩
      (by decide) (by decide) rfl (by decide) blobOracle_keccak_sep).2.1,
   ((prefetch_l1blob_expansion blobOracle exBlobHint []
      (List.replicate 48 0) ⟨List.replicate 48 1, List.replicate 131072 2⟩
      (by decide) (by decide) rfl (by decide) blobOracle_keccak_sep).2.2.1 5
      (by decide)).2.1,
   (prefetch_l1blob_expansion blobOracle exBlobHint []
      (List.replicate 48 0) ⟨List.replicate 48 1, List.replicate 131072 2⟩
      (by decide) (by decide) rfl (by decide) blobOracle_keccak_sep).2.2.2.1⟩

/-- C1 amended witness: both directions at concrete inputs — the futile-hint
configuration diverges, and with an empty recorded hint the loop cannot
diverge. -/
theorem GetPreimage_termination_iff_witness :
    GetPreimageDiverges mockOracle exHintC1 exKeyC1 [] ∧
    ¬GetPreimageDiverges mockOracle "" exKeyC1 [] :=
  ⟨(GetPreimage_termination_iff mockOracle exHintC1 exKeyC1 []).mpr
     ⟨rfl, by decide, by decide, by decide⟩,
   fun hdiv => ((GetPreimage_termination_iff mockOracle "" exKeyC1 []).mp hdiv).2.1 rfl⟩

/-- C4 amended witness: a hint containing a recognised substring gets
`200 "ok"`, a hint containing none gets 400. -/
theorem hintRoute_spec_witness :
    hintRoute (fun h => (prefetcherHintHandler h).1) "l1-receipts 0x00" = (200, "ok") ∧
    hintRoute (fun h => (prefetcherHintHandler h).1) "nope 0x00" = (400, "") :=
  ⟨(hintRoute_spec "l1-receipts 0x00").1.mpr (.inr (.inr (.inl (by decide)))),
   (hintRoute_spec "nope 0x00").2 (by decide)⟩
